import Mathlib

set_option autoImplicit false
set_option maxRecDepth 8192

/-!
Shallow embedding of the security core of the electron-mcp-server repository:
the SecurityManager orchestrator (security-manager.ts), the CodeSandbox
(src/security/sandbox.ts), the command-translation layer
(src/utils/electron-commands.ts and the basic command dispatcher), and the
AccessControl component (src/security/access-control.ts).

External collaborators (the InputValidator's classification function, the
JSON parser used on sandbox child stdout, the cryptographic hash, and the
behaviour of the spawned child process) enter the embedding as explicit
function parameters ("oracles"), exactly at the call boundaries the source
uses them; every control-flow decision made by the embedded code itself is
translated from the source.
-/

namespace ElectronMCP

/-- Risk levels `'low' | 'medium' | 'high' | 'critical'` (security-manager.ts). -/
inductive RiskLevel where
  | low
  | medium
  | high
  | critical
deriving DecidableEq, Repr

/-- Numeric rank realizing the spec's total order `low < medium < high < critical`. -/
def RiskLevel.toNat : RiskLevel → Nat
  | .low => 0
  | .medium => 1
  | .high => 2
  | .critical => 3

/-- The spec-side strict order on risk levels. -/
def RiskLevel.lt (a b : RiskLevel) : Prop := a.toNat < b.toNat

instance : DecidablePred fun p : RiskLevel × RiskLevel => RiskLevel.lt p.1 p.2 :=
  fun p => inferInstanceAs (Decidable (p.1.toNat < p.2.toNat))

instance (a b : RiskLevel) : Decidable (RiskLevel.lt a b) :=
  inferInstanceAs (Decidable (a.toNat < b.toNat))

/-- The string the source uses for each risk level (template interpolation). -/
def RiskLevel.str : RiskLevel → String
  | .low => "low"
  | .medium => "medium"
  | .high => "high"
  | .critical => "critical"

/-- `operationType: 'command' | 'screenshot' | 'logs' | 'window_info'` (security-manager.ts). -/
inductive OperationType where
  | command
  | screenshot
  | logs
  | window_info
deriving DecidableEq, Repr

/-- `sanitizedInput` component of a `ValidationResult` (validation.ts interface,
as consumed by security-manager.ts). -/
structure SanitizedInput where
  command : String
  args : Option String
deriving DecidableEq, Repr

/-- `ValidationResult` as consumed by `SecurityManager.executeSecurely`:
`{ isValid, sanitizedInput, riskLevel, errors }`. -/
structure ValidationResult where
  isValid : Bool
  sanitizedInput : SanitizedInput
  riskLevel : RiskLevel
  errors : List String
deriving DecidableEq, Repr

/-- `SecurityConfig` (security-manager.ts). -/
structure SecurityConfig where
  enableSandbox : Bool
  enableInputValidation : Bool
  enableAuditLog : Bool
  enableScreenshotEncryption : Bool
  defaultRiskThreshold : RiskLevel
  sandboxTimeout : Nat
  maxExecutionTime : Nat
deriving DecidableEq, Repr

/-- The defaults installed by the `SecurityManager` constructor. -/
def defaultSecurityConfig : SecurityConfig :=
  { enableSandbox := true
    enableInputValidation := true
    enableAuditLog := true
    enableScreenshotEncryption := true
    defaultRiskThreshold := .medium
    sandboxTimeout := 5000
    maxExecutionTime := 30000 }

/-- `SecureExecutionContext` (security-manager.ts). -/
structure SecureExecutionContext where
  command : String
  args : Option String
  sourceIP : Option String
  userAgent : Option String
  operationType : OperationType
deriving DecidableEq, Repr

/-- `SandboxResult` (sandbox.ts). -/
structure SandboxResult where
  success : Bool
  result : Option String
  error : Option String
  executionTime : Nat
deriving DecidableEq, Repr

/-- `SecureExecutionResult` (security-manager.ts). -/
structure SecureExecutionResult where
  success : Bool
  result : Option String
  error : Option String
  executionTime : Nat
  riskLevel : RiskLevel
  blocked : Bool
  sessionId : String
deriving DecidableEq, Repr

/-- `AuditLogEntry` (audit.ts interface, populated by
`SecurityManager.logSecurityEvent`). -/
structure AuditLogEntry where
  timestamp : String
  sessionId : String
  action : OperationType
  command : String
  riskLevel : RiskLevel
  success : Bool
  error : Option String
  executionTime : Nat
  sourceIP : Option String
  userAgent : Option String
deriving DecidableEq, Repr

/-- `SecurityManager.createBlockedResult` (security-manager.ts lines 154-168). -/
def createBlockedResult (sessionId : String) (elapsed : Nat) (reason : String)
    (riskLevel : RiskLevel) : SecureExecutionResult :=
  { success := false
    result := none
    error := some reason
    executionTime := elapsed
    riskLevel := riskLevel
    blocked := true
    sessionId := sessionId }

/-- The audit entry built by `SecurityManager.logSecurityEvent`
(security-manager.ts lines 170-188). -/
def mkAuditEntry (timestamp : String) (ctx : SecureExecutionContext)
    (result : SecureExecutionResult) : AuditLogEntry :=
  { timestamp := timestamp
    sessionId := result.sessionId
    action := ctx.operationType
    command := ctx.command
    riskLevel := result.riskLevel
    success := result.success
    error := result.error
    executionTime := result.executionTime
    sourceIP := ctx.sourceIP
    userAgent := ctx.userAgent }

/-- The observable outcome of one `executeSecurely` call: the returned result,
the audit entries written during the call, and the code strings passed to the
sandbox (empty when the sandbox was never invoked). -/
structure ManagerOutcome where
  result : SecureExecutionResult
  audit : List AuditLogEntry
  sandboxCalls : List String
deriving DecidableEq, Repr

/-- `SecurityManager.executeSecurely` (security-manager.ts lines 60-142).

Oracles: `validate` stands for `InputValidator.validateCommand` (a pure
function per the validator's contract), `sandboxExec` for
`this.sandbox.executeCode` (which always resolves, by its own try/catch).
`sessionId` stands for the fresh `randomUUID()`, `elapsed` for
`Date.now() - startTime`, `timestamp` for `new Date().toISOString()`.

Control flow translated from the source:
1. validate; on `!isValid` return `createBlockedResult` (no audit write);
2. risk gate: block iff `riskLevel === 'critical'` or
   `threshold === 'high' && riskLevel === 'high'` (again no audit write);
3. for `operationType === 'command' && enableSandbox` run the sandbox,
   otherwise pass the sanitized command through as the result;
4. build the result with `blocked: false`;
5. write one audit entry iff `enableAuditLog`. -/
def executeSecurely (config : SecurityConfig)
    (validate : String → Option String → ValidationResult)
    (sandboxExec : String → SandboxResult)
    (sessionId : String) (elapsed : Nat) (timestamp : String)
    (ctx : SecureExecutionContext) : ManagerOutcome :=
  let validation := validate ctx.command ctx.args
  if !validation.isValid then
    { result := createBlockedResult sessionId elapsed
        ("Input validation failed: " ++ String.intercalate ", " validation.errors)
        validation.riskLevel
      audit := []
      sandboxCalls := [] }
  else if validation.riskLevel == .critical ||
      (config.defaultRiskThreshold == .high && validation.riskLevel == .high) then
    { result := createBlockedResult sessionId elapsed
        ("Risk level too high: " ++ validation.riskLevel.str)
        validation.riskLevel
      audit := []
      sandboxCalls := [] }
  else
    let executionResult : SandboxResult :=
      if ctx.operationType == .command && config.enableSandbox then
        sandboxExec validation.sanitizedInput.command
      else
        { success := true
          result := some validation.sanitizedInput.command
          error := none
          executionTime := 0 }
    let result : SecureExecutionResult :=
      { success := executionResult.success
        result := executionResult.result
        error := executionResult.error
        executionTime := elapsed
        riskLevel := validation.riskLevel
        blocked := false
        sessionId := sessionId }
    { result := result
      audit := if config.enableAuditLog then [mkAuditEntry timestamp ctx result] else []
      sandboxCalls :=
        if ctx.operationType == .command && config.enableSandbox then
          [validation.sanitizedInput.command]
        else [] }

/-! ## Code Sandbox (src/security/sandbox.ts)

The static `validateCode` denylist check is embedded by implementing, for each
regular expression the source builds, a direct character scanner with the same
matching semantics (JS `\w` is `[A-Za-z0-9_]`; `\s` is modelled by its ASCII
subset; `.` matches everything except line terminators `\n`/`\r`). -/

/-- JS `\w` word character: `[A-Za-z0-9_]`. -/
def isJsWordChar (c : Char) : Bool := c.isAlphanum || c = '_'

/-- JS `\s` whitespace (ASCII subset). -/
def isJsWs (c : Char) : Bool :=
  c = ' ' || c = '\t' || c = '\n' || c = '\r' || c = '\x0b' || c = '\x0c'

/-- JS line terminator (the characters `.` does not match), ASCII subset. -/
def isLineTerm (c : Char) : Bool := c = '\n' || c = '\r'

/-- Does `pat` occur as a prefix of `s`? -/
def listStartsWith : List Char → List Char → Bool
  | [], _ => true
  | _ :: _, [] => false
  | p :: ps, c :: cs => p = c && listStartsWith ps cs

/-- Strip `pat` from the front of `s`, returning the remainder. -/
def stripPre : List Char → List Char → Option (List Char)
  | [], s => some s
  | _ :: _, [] => none
  | p :: ps, c :: cs => if p = c then stripPre ps cs else none

/-- A `\b` boundary holds before the scan position given the previous character. -/
def boundaryBefore : Option Char → Bool
  | none => true
  | some p => !isJsWordChar p

/-- A `\b` boundary holds after a word given the following text. -/
def boundaryAfter : List Char → Bool
  | [] => true
  | c :: _ => !isJsWordChar c

/-- `\s*\(`: optional whitespace then an opening parenthesis. -/
def wsStarThenParen : List Char → Bool
  | [] => false
  | c :: cs => if c = '(' then true else if isJsWs c then wsStarThenParen cs else false

/-- Scanner for `new RegExp("\\b" + name + "\\s*\\(").test(code)`:
`name` at a word boundary, followed by `\s*` and `(`. -/
def scanFuncCall (name : List Char) : Option Char → List Char → Bool
  | _, [] => false
  | prev, c :: cs =>
      (boundaryBefore prev &&
        (match stripPre name (c :: cs) with
         | some rest => wsStarThenParen rest
         | none => false)) || scanFuncCall name (some c) cs

/-- Scanner for `new RegExp("\\b" + name + "\\b").test(code)`. -/
def scanWord (name : List Char) : Option Char → List Char → Bool
  | _, [] => false
  | prev, c :: cs =>
      (boundaryBefore prev &&
        (match stripPre name (c :: cs) with
         | some rest => boundaryAfter rest
         | none => false)) || scanWord name (some c) cs

/-- Scanner for `name` followed by `\s*\(` with no leading boundary
(the `/require\s*\(/` dangerous pattern). -/
def scanSubCall (name : List Char) : List Char → Bool
  | [] => false
  | c :: cs =>
      (match stripPre name (c :: cs) with
       | some rest => wsStarThenParen rest
       | none => false) || scanSubCall name cs

/-- Plain substring occurrence. -/
def scanSub (pat : List Char) : List Char → Bool
  | [] => listStartsWith pat []
  | c :: cs => listStartsWith pat (c :: cs) || scanSub pat cs

/-- `\s*` then the literal `from`. -/
def wsStarFrom : List Char → Bool
  | [] => false
  | c :: cs =>
      listStartsWith ['f', 'r', 'o', 'm'] (c :: cs) || (isJsWs c && wsStarFrom cs)

/-- `\s+` then the literal `from`. -/
def wsPlusFrom : List Char → Bool
  | [] => false
  | c :: cs => isJsWs c && wsStarFrom cs

/-- The `.*\s+from` tail: a run of non-line-terminator characters, then
at least one whitespace character, then `from`. -/
def importMiddle : List Char → Bool
  | [] => false
  | c :: cs => wsPlusFrom (c :: cs) || (!isLineTerm c && importMiddle cs)

/-- Continuation after the first `\s` of `import\s+.*\s+from`: extend the
whitespace run or start the `.*` middle. -/
def importAfterWs : List Char → Bool
  | [] => false
  | c :: cs => (isJsWs c && importAfterWs cs) || importMiddle (c :: cs)

/-- The tail of `/import\s+.*\s+from/` after the literal `import`. -/
def importFromTail : List Char → Bool
  | [] => false
  | c :: cs => isJsWs c && importAfterWs cs

/-- Scanner for `/import\s+.*\s+from/`. -/
def scanImportFrom : List Char → Bool
  | [] => false
  | c :: cs =>
      (match stripPre ['i', 'm', 'p', 'o', 'r', 't'] (c :: cs) with
       | some rest => importFromTail rest
       | none => false) || scanImportFrom cs

/-- `DEFAULT_BLACKLISTED_FUNCTIONS` (sandbox.ts lines 22-39). -/
def defaultBlacklistedFunctions : List String :=
  ["eval", "Function", "setTimeout", "setInterval", "setImmediate", "require",
   "import", "process", "global", "globalThis", "__dirname", "__filename",
   "Buffer", "XMLHttpRequest", "fetch", "WebSocket"]

/-- `DEFAULT_BLACKLISTED_OBJECTS` (sandbox.ts lines 41-61). -/
def defaultBlacklistedObjects : List String :=
  ["fs", "child_process", "cluster", "crypto", "dgram", "dns", "http", "https",
   "net", "os", "path", "stream", "tls", "url", "util", "v8", "vm",
   "worker_threads", "zlib"]

/-- Result of `CodeSandbox.validateCode`. -/
structure CodeValidation where
  isValid : Bool
  errors : List String
deriving DecidableEq, Repr

/-- Hits of the `dangerousPatterns` array (sandbox.ts lines 138-153), with the
error messages built from each pattern's source text, in array order. -/
def dangerousPatternHits (cs : List Char) : List String :=
  (if scanSubCall "require".toList cs then
    ["Dangerous pattern detected: require\\s*\\("] else []) ++
  (if scanImportFrom cs then
    ["Dangerous pattern detected: import\\s+.*\\s+from"] else []) ++
  (if scanSub ".constructor".toList cs then
    ["Dangerous pattern detected: \\.constructor"] else []) ++
  (if scanSub ".__proto__".toList cs then
    ["Dangerous pattern detected: \\.__proto__"] else []) ++
  (if scanSub "prototype.".toList cs then
    ["Dangerous pattern detected: prototype\\."] else []) ++
  (if scanSub "process.".toList cs then
    ["Dangerous pattern detected: process\\."] else []) ++
  (if scanSub "global.".toList cs then
    ["Dangerous pattern detected: global\\."] else []) ++
  (if scanSub "this.constructor".toList cs then
    ["Dangerous pattern detected: this\\.constructor"] else [])

/-- `CodeSandbox.validateCode` (sandbox.ts lines 118-159): blacklisted function
calls, blacklisted module/object words, then the dangerous patterns. -/
def validateCode (blacklistedFunctions : List String) (code : String) : CodeValidation :=
  let cs := code.toList
  let funcErrs := blacklistedFunctions.foldr
    (fun f acc =>
      (if scanFuncCall f.toList none cs then ["Forbidden function: " ++ f] else []) ++ acc) []
  let objErrs := defaultBlacklistedObjects.foldr
    (fun o acc =>
      (if scanWord o.toList none cs then ["Forbidden module/object: " ++ o] else []) ++ acc) []
  let errors := funcErrs ++ objErrs ++ dangerousPatternHits cs
  { isValid := errors.isEmpty, errors := errors }

/-- Idealized filesystem state: the set of directories and of files (with
contents) currently on disk, as touched by the sandbox. -/
structure FS where
  dirs : List String
  files : List (String × String)
deriving DecidableEq, Repr

/-- All ancestor paths of `p` including `p` itself (what
`fs.mkdir(p, { recursive: true })` creates). -/
def pathParents (p : String) : List String :=
  let parts := p.splitOn "/"
  (List.range parts.length).map fun i => String.intercalate "/" (parts.take (i + 1))

/-- `fs.mkdir(d, { recursive: true })`. -/
def FS.mkdirRec (fs : FS) (d : String) : FS :=
  { fs with dirs := pathParents d ++ fs.dirs }

/-- `fs.writeFile(p, content)` (overwrites). -/
def FS.writeFile (fs : FS) (p content : String) : FS :=
  { fs with files := (p, content) :: fs.files.filter fun e => e.1 ≠ p }

/-- `fs.unlink(p)` when `p` exists. -/
def FS.unlink (fs : FS) (p : String) : FS :=
  { fs with files := fs.files.filter fun e => e.1 ≠ p }

/-- `fs.rm(d, { recursive: true, force: true })`: removes `d` and everything
under it; `force` means a missing target is not an error. -/
def FS.rmRec (fs : FS) (d : String) : FS :=
  { dirs := fs.dirs.filter fun x => !(x = d || (d ++ "/").isPrefixOf x)
    files := fs.files.filter fun e => !((d ++ "/").isPrefixOf e.1) }

/-- The `finally` block of `executeInIsolation` (sandbox.ts lines 177-185):
`unlink` then `rm` inside a try/catch that degrades a cleanup failure to a
warning. The only failure mode in this filesystem model is `unlink` on a
missing file (ENOENT), in which case the catch skips the `rm`. -/
def sandboxCleanup (fs : FS) (scriptPath tempDir : String) : FS :=
  if fs.files.any fun e => e.1 = scriptPath then
    (fs.unlink scriptPath).rmRec tempDir
  else fs

/-- The fixed head of the `createSecureWrapper` template (sandbox.ts lines
188-236), i.e. the generated harness text before the user code splice point. -/
def secureWrapperPre : String :=
  "\n" ++
  "\"use strict\";\n" ++
  "\n" ++
  "// Create isolated context\n" ++
  "const sandbox = \x7b\x7d;\n" ++
  "\n" ++
  "// Disable dangerous globals\n" ++
  "const originalGlobal = global;\n" ++
  "const originalProcess = process;\n" ++
  "const originalConsole = console;\n" ++
  "\n" ++
  "// Create safe console\n" ++
  "const safeConsole = \x7b\n" ++
  "  log: (...args) => originalConsole.log('[SANDBOX]', ...args),\n" ++
  "  error: (...args) => originalConsole.error('[SANDBOX]', ...args),\n" ++
  "  warn: (...args) => originalConsole.warn('[SANDBOX]', ...args)\n" ++
  "\x7d;\n" ++
  "\n" ++
  "// Override dangerous globals\n" ++
  "global = undefined;\n" ++
  "process = undefined;\n" ++
  "require = undefined;\n" ++
  "module = undefined;\n" ++
  "exports = undefined;\n" ++
  "__dirname = undefined;\n" ++
  "__filename = undefined;\n" ++
  "\n" ++
  "try \x7b\n" ++
  "  // Execute user code in try-catch\n" ++
  "  const result = (function() \x7b\n" ++
  "    const console = safeConsole;\n" ++
  "    "

/-- The fixed tail of the `createSecureWrapper` template after the user code
splice point. -/
def secureWrapperPost : String :=
  "\n" ++
  "  \x7d)();\n" ++
  "  \n" ++
  "  // Send result back\n" ++
  "  originalProcess.stdout.write(JSON.stringify(\x7b\n" ++
  "    success: true,\n" ++
  "    result: result\n" ++
  "  \x7d));\n" ++
  "\x7d catch (error) \x7b\n" ++
  "  originalProcess.stdout.write(JSON.stringify(\x7b\n" ++
  "    success: false,\n" ++
  "    error: error.message,\n" ++
  "    stack: error.stack\n" ++
  "  \x7d));\n" ++
  "\x7d\n"


/-- `CodeSandbox.createSecureWrapper` (sandbox.ts lines 188-236): the template
literal splices `userCode` between the fixed head and tail. -/
def createSecureWrapper (userCode : String) : String :=
  secureWrapperPre ++ userCode ++ secureWrapperPost

/-- The parsed shape of the child's stdout protocol: `{success, result}` or
`{success: false, error, stack}` (sandbox.ts harness, lines 222-234). -/
structure ParsedOutput where
  success : Bool
  result : Option String
  error : Option String
deriving DecidableEq, Repr

/-- One observed behaviour of the spawned `node` child process. When the child
runs past `options.timeout`, `spawn`'s timeout option kills it with SIGTERM and
the `close` event fires with a `null` exit code; `spawnError` models the
`'error'` event (e.g. the executable could not be spawned). -/
structure ChildProcessRun where
  spawnError : Option String
  timedOut : Bool
  exitCode : Int
  stdout : String
  stderr : String
deriving DecidableEq, Repr

/-- JS template interpolation of the `close` exit code (`null` when killed). -/
def exitCodeStr : Option Int → String
  | none => "null"
  | some i => toString i

/-- `CodeSandbox.executeInProcess` (sandbox.ts lines 238-277). `parseJson`
models `JSON.parse` applied to the accumulated stdout; a parse failure carries
the stringified exception. Resolution is `Except.ok`, rejection `.error`. -/
def executeInProcess (parseJson : String → Except String ParsedOutput)
    (run : ChildProcessRun) : Except String (Option String) :=
  match run.spawnError with
  | some e => .error e
  | none =>
    let code : Option Int := if run.timedOut then none else some run.exitCode
    if code = some 0 then
      match parseJson run.stdout with
      | .error perr => .error ("Failed to parse execution result: " ++ perr)
      | .ok p => if p.success then .ok p.result else .error (p.error.getD "")
    else
      .error ("Process exited with code " ++ exitCodeStr code ++ ": " ++ run.stderr)

/-- The per-session scratch directory `join(process.cwd(), 'temp', sessionId)`
(paths are modelled relative to the working directory). -/
def tempDirFor (sessionId : String) : String := "temp/" ++ sessionId

/-- The generated harness path `join(tempDir, 'script.cjs')`. -/
def scriptPathFor (sessionId : String) : String := tempDirFor sessionId ++ "/script.cjs"

/-- `CodeSandbox.executeInIsolation` (sandbox.ts lines 161-186): create the
scratch directory, write the wrapper script, run the child, and always run the
cleanup of the `finally` block, on the resolution and the rejection path alike. -/
def executeInIsolation (parseJson : String → Except String ParsedOutput)
    (run : ChildProcessRun) (fs : FS) (code sessionId : String) :
    Except String (Option String) × FS :=
  let tempDir := tempDirFor sessionId
  let scriptPath := scriptPathFor sessionId
  let fs1 := (fs.mkdirRec tempDir).writeFile scriptPath (createSecureWrapper code)
  let res := executeInProcess parseJson run
  (res, sandboxCleanup fs1 scriptPath tempDir)

/-- `CodeSandbox.executeCode` (sandbox.ts lines 78-116): static validation,
then isolated execution; every rejection is caught and converted into a
`success: false` result, so the function is total (the promise always
resolves). `elapsed` models `Date.now() - startTime`. -/
def executeCode (parseJson : String → Except String ParsedOutput)
    (run : ChildProcessRun) (fs : FS) (sessionId : String) (elapsed : Nat)
    (code : String) : SandboxResult × FS :=
  let v := validateCode defaultBlacklistedFunctions code
  if !v.isValid then
    ({ success := false, result := none
       error := some ("Code validation failed: " ++ String.intercalate ", " v.errors)
       executionTime := elapsed }, fs)
  else
    match executeInIsolation parseJson run fs code sessionId with
    | (.ok r, fs') =>
        ({ success := true, result := r, error := none, executionTime := elapsed }, fs')
    | (.error msg, fs') =>
        ({ success := false, result := none, error := some msg, executionTime := elapsed }, fs')

/-- Fixture: a validator oracle that accepts its input at the given risk level. -/
def oracleValidAt (lvl : RiskLevel) : String → Option String → ValidationResult :=
  fun c a => { isValid := true, sanitizedInput := { command := c, args := a }, riskLevel := lvl, errors := [] }

/-- Fixture: a validator oracle that rejects its input at the given risk level. -/
def oracleInvalidAt (lvl : RiskLevel) : String → Option String → ValidationResult :=
  fun c a =>
    { isValid := false, sanitizedInput := { command := c, args := a }, riskLevel := lvl
      errors := ["Dangerous keyword detected: eval"] }

/-- Fixture: a sandbox oracle that succeeds, echoing the code. -/
def oracleSandboxOk : String → SandboxResult :=
  fun c => { success := true, result := some c, error := none, executionTime := 1 }

/-- Fixture: a sandbox oracle that fails. -/
def oracleSandboxFail : String → SandboxResult :=
  fun _ => { success := false, result := none, error := some "boom", executionTime := 1 }

/-- Fixture: a `command`-typed execution context. -/
def ctxCommand (c : String) : SecureExecutionContext :=
  { command := c, args := none, sourceIP := none, userAgent := none, operationType := .command }

/-! ## Command translation layer
(src/utils/electron-commands.ts and the basic `sendCommandToElectron`
dispatcher). Caller-supplied text is spliced into generated JavaScript. -/

/-- The single-quote character, written by code point to keep the splice
analysis readable. -/
def sqChar : Char := Char.ofNat 39

/-- The backslash character. -/
def bsChar : Char := Char.ofNat 92

/-- The fixed head of the `generateClickByTextCommand` template
(electron-commands.ts lines 305-311): everything before the `text` splice
point, ending in `const targetText = '`. -/
def clickByTextPre : String :=
  "\n" ++
  "    (function() \x7b\n" ++
  "      const targetText = '"
/-- The fixed tail of the `generateClickByTextCommand` template after the
closing quote that follows the `text` splice point. -/
def clickByTextPostRest : String :=
  ";\n" ++
  "      \n" ++
  "      // Deep DOM analysis function\n" ++
  "      function analyzeElement(el) \x7b\n" ++
  "        const rect = el.getBoundingClientRect();\n" ++
  "        const style = getComputedStyle(el);\n" ++
  "        \n" ++
  "        return \x7b\n" ++
  "          element: el,\n" ++
  "          text: (el.textContent || '').trim(),\n" ++
  "          ariaLabel: el.getAttribute('aria-label') || '',\n" ++
  "          title: el.title || '',\n" ++
  "          role: el.getAttribute('role') || el.tagName.toLowerCase(),\n" ++
  "          isVisible: rect.width > 0 && rect.height > 0 && style.display !== 'none' && style.visibility !== 'hidden',\n" ++
  "          isInteractive: el.tagName.match(/^(BUTTON|A|INPUT)$/) || el.hasAttribute('onclick') || el.getAttribute('role') === 'button' || style.cursor === 'pointer',\n" ++
  "          rect: rect,\n" ++
  "          zIndex: parseInt(style.zIndex) || 0,\n" ++
  "          opacity: parseFloat(style.opacity) || 1\n" ++
  "        \x7d;\n" ++
  "      \x7d\n" ++
  "      \n" ++
  "      // Score element relevance\n" ++
  "      function scoreElement(analysis, target) \x7b\n" ++
  "        let score = 0;\n" ++
  "        const text = analysis.text.toLowerCase();\n" ++
  "        const label = analysis.ariaLabel.toLowerCase();\n" ++
  "        const title = analysis.title.toLowerCase();\n" ++
  "        const targetLower = target.toLowerCase();\n" ++
  "        \n" ++
  "        // Exact match gets highest score\n" ++
  "        if (text === targetLower || label === targetLower || title === targetLower) score += 100;\n" ++
  "        \n" ++
  "        // Starts with target\n" ++
  "        if (text.startsWith(targetLower) || label.startsWith(targetLower)) score += 50;\n" ++
  "        \n" ++
  "        // Contains target\n" ++
  "        if (text.includes(targetLower) || label.includes(targetLower) || title.includes(targetLower)) score += 25;\n" ++
  "        \n" ++
  "        // Fuzzy matching for close matches\n" ++
  "        const similarity = Math.max(\n" ++
  "          calculateSimilarity(text, targetLower),\n" ++
  "          calculateSimilarity(label, targetLower),\n" ++
  "          calculateSimilarity(title, targetLower)\n" ++
  "        );\n" ++
  "        score += similarity * 20;\n" ++
  "        \n" ++
  "        // Bonus for interactive elements\n" ++
  "        if (analysis.isInteractive) score += 10;\n" ++
  "        \n" ++
  "        // Bonus for visibility\n" ++
  "        if (analysis.isVisible) score += 15;\n" ++
  "        \n" ++
  "        // Bonus for larger elements (more likely to be main buttons)\n" ++
  "        if (analysis.rect.width > 100 && analysis.rect.height > 30) score += 5;\n" ++
  "        \n" ++
  "        // Bonus for higher z-index (on top)\n" ++
  "        score += Math.min(analysis.zIndex, 5);\n" ++
  "        \n" ++
  "        return score;\n" ++
  "      \x7d\n" ++
  "      \n" ++
  "      // Simple string similarity function\n" ++
  "      function calculateSimilarity(str1, str2) \x7b\n" ++
  "        const len1 = str1.length;\n" ++
  "        const len2 = str2.length;\n" ++
  "        const maxLen = Math.max(len1, len2);\n" ++
  "        if (maxLen === 0) return 0;\n" ++
  "        \n" ++
  "        let matches = 0;\n" ++
  "        const minLen = Math.min(len1, len2);\n" ++
  "        for (let i = 0; i < minLen; i++) \x7b\n" ++
  "          if (str1[i] === str2[i]) matches++;\n" ++
  "        \x7d\n" ++
  "        return matches / maxLen;\n" ++
  "      \x7d\n" ++
  "      \n" ++
  "      // Find all potentially clickable elements\n" ++
  "      const allElements = document.querySelectorAll('*');\n" ++
  "      const candidates = [];\n" ++
  "      \n" ++
  "      for (let el of allElements) \x7b\n" ++
  "        const analysis = analyzeElement(el);\n" ++
  "        \n" ++
  "        if (analysis.isVisible && (analysis.isInteractive || analysis.text || analysis.ariaLabel)) \x7b\n" ++
  "          const score = scoreElement(analysis, targetText);\n" ++
  "          if (score > 5) \x7b // Only consider elements with some relevance\n" ++
  "            candidates.push(\x7b ...analysis, score \x7d);\n" ++
  "          \x7d\n" ++
  "        \x7d\n" ++
  "      \x7d\n" ++
  "      \n" ++
  "      if (candidates.length === 0) \x7b\n" ++
  "        return `No clickable elements found containing text: \"$\x7btargetText\x7d\"`;\n" ++
  "      \x7d\n" ++
  "      \n" ++
  "      // Sort by score and get the best match\n" ++
  "      candidates.sort((a, b) => b.score - a.score);\n" ++
  "      const best = candidates[0];\n" ++
  "      \n" ++
  "      // Additional validation before clicking\n" ++
  "      if (best.score < 15) \x7b\n" ++
  "        return `Found potential matches but confidence too low (score: $\x7bbest.score\x7d). Best match was: \"$\x7bbest.text || best.ariaLabel\x7d\" - try being more specific.`;\n" ++
  "      \x7d\n" ++
  "      \n" ++
  "      // Enhanced clicking for React components\n" ++
  "      function clickElement(element) \x7b\n" ++
  "        // Scroll element into view if needed\n" ++
  "        element.scrollIntoView(\x7b behavior: 'smooth', block: 'center' \x7d);\n" ++
  "        \n" ++
  "        // Focus the element\n" ++
  "        if (element.focus) element.focus();\n" ++
  "        \n" ++
  "        // Create and dispatch multiple events for React compatibility\n" ++
  "        const events = [\n" ++
  "          new MouseEvent('mousedown', \x7b bubbles: true, cancelable: true \x7d),\n" ++
  "          new MouseEvent('mouseup', \x7b bubbles: true, cancelable: true \x7d),\n" ++
  "          new MouseEvent('click', \x7b bubbles: true, cancelable: true \x7d),\n" ++
  "        ];\n" ++
  "        \n" ++
  "        events.forEach(event => \x7b\n" ++
  "          element.dispatchEvent(event);\n" ++
  "        \x7d);\n" ++
  "        \n" ++
  "        // Try programmatic click as fallback\n" ++
  "        if (element.click) \x7b\n" ++
  "          element.click();\n" ++
  "        \x7d\n" ++
  "      \x7d\n" ++
  "      \n" ++
  "      // Wait a moment for scroll, then click\n" ++
  "      setTimeout(() => \x7b\n" ++
  "        clickElement(best.element);\n" ++
  "      \x7d, 100);\n" ++
  "      \n" ++
  "      return `Clicked best match (score: $\x7bbest.score\x7d): \"$\x7bbest.text || best.ariaLabel || best.title\x7d\" - searched for: \"$\x7btargetText\x7d\"`;\n" ++
  "    \x7d)()\n" ++
  "  "

/-- The closing quote plus the fixed tail: what follows the spliced `text`. -/
def clickByTextPost : String := String.mk (sqChar :: clickByTextPostRest.toList)

/-- `generateClickByTextCommand` (electron-commands.ts lines 305-445): the
template literal splices the raw `text` between head and tail — `const
targetText = '${text}';` with no escaping applied. -/
def generateClickByTextCommand (text : String) : String :=
  clickByTextPre ++ text ++ clickByTextPost

/-- The `click_button` arm of the basic `sendCommandToElectron` dispatcher:
`document.querySelector('${args?.selector || "button"}')?.click(); 'Button
clicked'` — the selector is spliced raw into a single-quoted literal. -/
def genClickButtonCommand (selector : String) : String :=
  "document.querySelector('" ++ selector ++ "')?.click(); 'Button clicked'"

/-- Read the body of a single-quoted JS string literal the way the JS lexer
does: characters up to the first unescaped single quote; a backslash escapes
the following character; `none` when the literal is unterminated. -/
def readSqLiteral : List Char → Option (List Char)
  | [] => none
  | [c] => if c = sqChar then some [] else none
  | c :: d :: cs =>
      if c = sqChar then some []
      else if c = bsChar then (readSqLiteral cs).map fun r => c :: d :: r
      else (readSqLiteral (d :: cs)).map fun r => c :: r

/-- The content a JS lexer assigns to the `targetText` string literal of a
generated click-by-text command: strip the fixed head (which ends at the
opening quote) and read the literal. This is the command's structural slot for
the caller's text; an escaped embedding would make it round-trip. -/
def clickByTextLiteral (generated : String) : Option String :=
  match stripPre clickByTextPre.data generated.data with
  | none => none
  | some rest => (readSqLiteral rest).map String.mk

/-- The selector literal slot of a generated `click_button` command. -/
def clickButtonLiteral (generated : String) : Option String :=
  match stripPre ("document.querySelector('" : String).data generated.data with
  | none => none
  | some rest => (readSqLiteral rest).map String.mk

/-! ## Access control (src/security/access-control.ts)

Time is modelled as milliseconds (`Nat`); `Date` values become their
`getTime()` milliseconds. The cryptographic hash `sha256` is an oracle
`h : String → String` (hex digest of a string); `randomUUID()` values are
passed in as parameters. Operations that mutate the component return the
updated state explicitly. -/

/-- The `Permission` union type (access-control.ts lines 29-36). -/
inductive Perm where
  | execute_code
  | take_screenshot
  | read_logs
  | window_management
  | file_system
  | network_access
  | admin
deriving DecidableEq, Repr

/-- `User` (access-control.ts lines 5-18); `rateLimit` is flattened into its
two fields. -/
structure User where
  id : String
  username : String
  hashedPassword : String
  permissions : List Perm
  maxRequests : Nat
  windowMs : Nat
  createdAt : Nat
  lastLogin : Option Nat
  isActive : Bool
  apiKey : Option String
deriving DecidableEq, Repr

/-- `SessionData` (access-control.ts lines 20-27). -/
structure SessionData where
  userId : String
  sessionId : String
  createdAt : Nat
  lastActivity : Nat
  permissions : List Perm
  isValid : Bool
deriving DecidableEq, Repr

/-- The two `Map`s owned by `AccessControl`, in insertion order (the
`RateLimiter`'s internal counters live outside this model; its verdict enters
as an oracle). -/
structure ACState where
  users : List User
  sessions : List SessionData
deriving DecidableEq, Repr

/-- `sessionTimeout = 24 * 60 * 60 * 1000` (24 hours, access-control.ts line 42). -/
def sessionTimeout : Nat := 24 * 60 * 60 * 1000

/-- `hashPassword` (access-control.ts lines 271-273):
`sha256(password + 'mcp-server-salt')` hex digest; `h` models the digest. -/
def hashPassword (h : String → String) (password : String) : String :=
  h (password ++ "mcp-server-salt")

/-- `verifyPassword` (access-control.ts lines 275-282): hash the candidate with
the same salt and compare. The source compares the two hex strings as UTF-8
buffers with a length check plus `timingSafeEqual`, which decides exactly
string equality (UTF-8 encoding is injective); the constant-time evaluation
strategy itself is extra-functional and outside the model. -/
def verifyPassword (h : String → String) (password hashedPassword : String) : Bool :=
  hashPassword h password == hashedPassword

/-- `Map.set` on the user table: overwrite the entry with the same key, else
append (JS `Map` keeps insertion order). -/
def setUser (st : ACState) (u : User) : ACState :=
  if st.users.any fun v => v.id == u.id then
    { st with users := st.users.map fun v => if v.id == u.id then u else v }
  else
    { st with users := st.users ++ [u] }

/-- `Map.set` on the session table. -/
def setSession (st : ACState) (s : SessionData) : ACState :=
  if st.sessions.any fun t => t.sessionId == s.sessionId then
    { st with sessions := st.sessions.map fun t => if t.sessionId == s.sessionId then s else t }
  else
    { st with sessions := st.sessions ++ [s] }

/-- `sessions.get(sessionId)`. -/
def sessionsGet (st : ACState) (sid : String) : Option SessionData :=
  st.sessions.find? fun s => s.sessionId == sid

/-- `users.get(userId)` (`getUserById`, access-control.ts lines 215-217). -/
def getUserById (st : ACState) (uid : String) : Option User :=
  st.users.find? fun u => u.id == uid

/-- `Array.from(this.users.values()).find(u => u.username === username)`:
first user in insertion order with the given name. -/
def findByUsername (st : ACState) (username : String) : Option User :=
  st.users.find? fun u => u.username == username

/-- `AccessControl.createUser` (access-control.ts lines 50-75). `userId` and
`apiKey` stand for the fresh `randomUUID()`-derived values. -/
def createUser (h : String → String) (userId apiKey username password : String)
    (permissions : List Perm) (maxRequests windowMs now : Nat)
    (st : ACState) : User × ACState :=
  let user : User :=
    { id := userId
      username := username
      hashedPassword := hashPassword h password
      permissions := permissions
      maxRequests := maxRequests
      windowMs := windowMs
      createdAt := now
      lastLogin := none
      isActive := true
      apiKey := some apiKey }
  (user, setUser st user)

/-- `AccessControl.authenticateUser` (access-control.ts lines 77-108): the
unknown-user and inactive-user cases return `null` through the same branch;
a failed password check returns `null`; success stores a fresh valid session
and bumps the user's `lastLogin`. -/
def authenticateUser (h : String → String) (st : ACState)
    (username password freshSid : String) (now : Nat) : Option String × ACState :=
  match findByUsername st username with
  | none => (none, st)
  | some user =>
    if !user.isActive then (none, st)
    else if !verifyPassword h password user.hashedPassword then (none, st)
    else
      let session : SessionData :=
        { userId := user.id
          sessionId := freshSid
          createdAt := now
          lastActivity := now
          permissions := user.permissions
          isValid := true }
      let st1 := setSession st session
      let st2 :=
        { st1 with users := st1.users.map fun v =>
            if v.id == user.id then { v with lastLogin := some now } else v }
      (some freshSid, st2)

/-- `AccessControl.invalidateSession` (access-control.ts lines 190-196). -/
def invalidateSession (st : ACState) (sid : String) : ACState :=
  { st with sessions := st.sessions.map fun s =>
      if s.sessionId == sid then { s with isValid := false } else s }

/-- `AccessControl.getValidSession` (access-control.ts lines 174-188): absent
or flagged-invalid sessions yield `null`; a session idle strictly longer than
`sessionTimeout` is invalidated and yields `null`; otherwise `lastActivity` is
bumped and the session returned. -/
def getValidSession (st : ACState) (sid : String) (now : Nat) :
    Option SessionData × ACState :=
  match sessionsGet st sid with
  | none => (none, st)
  | some s =>
    if !s.isValid then (none, st)
    else if now - s.lastActivity > sessionTimeout then (none, invalidateSession st sid)
    else
      let s' := { s with lastActivity := now }
      (some s', setSession st s')

/-- `AccessControl.hasPermission` (access-control.ts lines 135-143): `admin`
in the session's permission snapshot implies every permission. -/
def hasPermission (st : ACState) (sid : String) (p : Perm) (now : Nat) :
    Bool × ACState :=
  match getValidSession st sid now with
  | (none, st') => (false, st')
  | (some s, st') =>
      (s.permissions.contains Perm.admin || s.permissions.contains p, st')

/-- `AccessControl.checkRateLimit` (access-control.ts lines 145-157). The
`RateLimiter.checkLimit` verdict is the oracle `rl userId maxRequests
windowMs`; an invalid session is denied before the limiter is consulted. -/
def checkRateLimit (rl : String → Nat → Nat → Bool) (st : ACState)
    (sid : String) (now : Nat) : Bool × ACState :=
  match getValidSession st sid now with
  | (none, st') => (false, st')
  | (some s, st') =>
    match getUserById st' s.userId with
    | none => (false, st')
    | some u => (rl s.userId u.maxRequests u.windowMs, st')

/-- `process.env.MCP_ADMIN_PASSWORD || 'admin123'`: JS `||` falls back on any
falsy value, so an unset variable and an empty string both yield `'admin123'`. -/
def envOrDefaultPassword (env : Option String) : String :=
  match env with
  | some s => if s == "" then "admin123" else s
  | none => "admin123"

/-- `AccessControl.initializeDefaultUser` (access-control.ts lines 288-302):
when no users exist, create the `admin` user with the `admin` permission and
rate limit `{ maxRequests: 1000, windowMs: 60000 }`. -/
def initializeDefaultUser (h : String → String) (env : Option String)
    (userId apiKey : String) (now : Nat) (st : ACState) : ACState :=
  if st.users.isEmpty then
    (createUser h userId apiKey "admin" (envOrDefaultPassword env) [.admin] 1000 60000 now st).2
  else st

/-- The `AccessControl` constructor on an empty component (access-control.ts
lines 44-47; the periodic cleanup timer is traffic-independent and not part of
the per-operation model). -/
def mkAccessControl (h : String → String) (env : Option String)
    (userId apiKey : String) (now : Nat) : ACState :=
  initializeDefaultUser h env userId apiKey now { users := [], sessions := [] }

/-- The session-observing operations named by the session-lifecycle property. -/
inductive ACOp where
  | getValid (sid : String) (now : Nat)
  | hasPerm (sid : String) (p : Perm) (now : Nat)
  | rateLimit (sid : String) (now : Nat)
  | invalidate (sid : String)
deriving DecidableEq, Repr

/-- State effect of one operation. -/
def applyOp (rl : String → Nat → Nat → Bool) (st : ACState) : ACOp → ACState
  | .getValid sid now => (getValidSession st sid now).2
  | .hasPerm sid p now => (hasPermission st sid p now).2
  | .rateLimit sid now => (checkRateLimit rl st sid now).2
  | .invalidate sid => invalidateSession st sid

/-- State effect of a sequence of operations, left to right. -/
def applyOps (rl : String → Nat → Nat → Bool) (st : ACState) : List ACOp → ACState
  | [] => st
  | op :: ops => applyOps rl (applyOp rl st op) ops

/-- Every stored session with this id (there is at most one) is flagged
invalid: the id is permanently dead unless something re-inserts it. -/
def sessionDead (st : ACState) (sid : String) : Prop :=
  ∀ s ∈ st.sessions, s.sessionId = sid → s.isValid = false

/-! ## Theorems -/

/-- C1 (counterexample): with threshold `low` a successfully validated
`medium`-risk command is NOT blocked, and with threshold `medium` a `high`-risk
command is NOT blocked, although in both runs the validated risk level is
strictly above the configured `defaultRiskThreshold`. -/
theorem C1_counterexample :
    RiskLevel.lt RiskLevel.low RiskLevel.medium ∧
    (executeSecurely { defaultSecurityConfig with defaultRiskThreshold := RiskLevel.low }
      (oracleValidAt RiskLevel.medium) oracleSandboxOk "sid-c1a" 5 "t0"
      (ctxCommand "document.cookie")).result.blocked = false ∧
    RiskLevel.lt RiskLevel.medium RiskLevel.high ∧
    (executeSecurely defaultSecurityConfig
      (oracleValidAt RiskLevel.high) oracleSandboxOk "sid-c1b" 5 "t0"
      (ctxCommand "window.open()")).result.blocked = false := by
  refine ⟨by decide, by decide, by decide, by decide⟩

/-- C1 (amended): for every execution context whose validation succeeds, the
risk gate of `executeSecurely` blocks exactly when the validated risk level is
`critical`, or the configured `defaultRiskThreshold` is `high` and the level is
`high`; levels merely strictly above the threshold are not otherwise blocked. -/
theorem C1_riskGate (config : SecurityConfig)
    (validate : String → Option String → ValidationResult)
    (sandboxExec : String → SandboxResult) (sid : String) (elapsed : Nat)
    (ts : String) (ctx : SecureExecutionContext)
    (h : (validate ctx.command ctx.args).isValid = true) :
    (executeSecurely config validate sandboxExec sid elapsed ts ctx).result.blocked = true ↔
      ((validate ctx.command ctx.args).riskLevel = RiskLevel.critical ∨
        (config.defaultRiskThreshold = RiskLevel.high ∧
          (validate ctx.command ctx.args).riskLevel = RiskLevel.high)) := by
  cases hr : (validate ctx.command ctx.args).riskLevel <;>
    cases ht : config.defaultRiskThreshold <;>
      simp [executeSecurely, h, hr, ht, createBlockedResult]

/-- Witness for C1 (amended): threshold `high` with a validated `high`-risk
command is blocked. -/
theorem C1_riskGate_witness :
    ((oracleValidAt RiskLevel.high) "x" none).isValid = true ∧
    ((executeSecurely { defaultSecurityConfig with defaultRiskThreshold := RiskLevel.high }
        (oracleValidAt RiskLevel.high) oracleSandboxOk "sid-c1w" 3 "t0"
        (ctxCommand "x")).result.blocked = true ↔
      ((oracleValidAt RiskLevel.high "x" none).riskLevel = RiskLevel.critical ∨
        (RiskLevel.high = RiskLevel.high ∧
          (oracleValidAt RiskLevel.high "x" none).riskLevel = RiskLevel.high))) :=
  ⟨by decide, C1_riskGate _ _ _ _ _ _ _ (by decide)⟩

/-- C2: whenever validation assigns risk level `critical`, `executeSecurely`
returns `blocked: true`, for every configured `defaultRiskThreshold` (the
gate's first disjunct fires independently of the threshold, and a
validation-failure result is likewise blocked). -/
theorem C2_criticalAlwaysBlocked (config : SecurityConfig)
    (validate : String → Option String → ValidationResult)
    (sandboxExec : String → SandboxResult) (sid : String) (elapsed : Nat)
    (ts : String) (ctx : SecureExecutionContext)
    (h : (validate ctx.command ctx.args).riskLevel = RiskLevel.critical) :
    (executeSecurely config validate sandboxExec sid elapsed ts ctx).result.blocked = true := by
  cases hv : (validate ctx.command ctx.args).isValid <;>
    simp [executeSecurely, hv, h, createBlockedResult]

/-- Witness for C2: a `critical` validation verdict is blocked even when the
configured threshold is `critical` itself. -/
theorem C2_criticalAlwaysBlocked_witness :
    ((oracleValidAt RiskLevel.critical) "eval(1)" none).riskLevel = RiskLevel.critical ∧
    (executeSecurely { defaultSecurityConfig with defaultRiskThreshold := RiskLevel.critical }
      (oracleValidAt RiskLevel.critical) oracleSandboxOk "sid-c2w" 2 "t0"
      (ctxCommand "eval(1)")).result.blocked = true :=
  ⟨by decide, C2_criticalAlwaysBlocked _ _ _ _ _ _ _ (by decide)⟩

/-- C3 (counterexample): a call blocked by input validation records NO audit
entry even though audit logging is enabled — not "exactly one": both blocked
paths of `executeSecurely` return via `createBlockedResult` without calling
`logSecurityEvent`. -/
theorem C3_counterexample :
    defaultSecurityConfig.enableAuditLog = true ∧
    (executeSecurely defaultSecurityConfig (oracleInvalidAt RiskLevel.critical)
      oracleSandboxOk "sid-c3" 2 "t0"
      (ctxCommand "eval(process.exit(0))")).result.blocked = true ∧
    (executeSecurely defaultSecurityConfig (oracleInvalidAt RiskLevel.critical)
      oracleSandboxOk "sid-c3" 2 "t0"
      (ctxCommand "eval(process.exit(0))")).audit = [] := by
  refine ⟨by decide, by decide, by decide⟩

/-- C3 (amended): with audit logging enabled, a call that is NOT blocked
records exactly one audit entry, whose `sessionId` equals the returned
result's `sessionId`, whether execution succeeded or failed; a blocked call
(validation failure or risk gate) records no audit entry at all. -/
theorem C3_auditOnlyForUnblocked (config : SecurityConfig)
    (validate : String → Option String → ValidationResult)
    (sandboxExec : String → SandboxResult) (sid : String) (elapsed : Nat)
    (ts : String) (ctx : SecureExecutionContext)
    (hlog : config.enableAuditLog = true) :
    ((executeSecurely config validate sandboxExec sid elapsed ts ctx).result.blocked = false →
      (executeSecurely config validate sandboxExec sid elapsed ts ctx).audit.length = 1 ∧
      ∀ e ∈ (executeSecurely config validate sandboxExec sid elapsed ts ctx).audit,
        e.sessionId =
          (executeSecurely config validate sandboxExec sid elapsed ts ctx).result.sessionId) ∧
    ((executeSecurely config validate sandboxExec sid elapsed ts ctx).result.blocked = true →
      (executeSecurely config validate sandboxExec sid elapsed ts ctx).audit = []) := by
  cases hv : (validate ctx.command ctx.args).isValid
  · simp [executeSecurely, hv, createBlockedResult]
  · by_cases hg : ((validate ctx.command ctx.args).riskLevel == RiskLevel.critical ||
        (config.defaultRiskThreshold == RiskLevel.high &&
          (validate ctx.command ctx.args).riskLevel == RiskLevel.high)) = true
    · simp [executeSecurely, hv, hg, createBlockedResult]
    · simp [executeSecurely, hv, hg, hlog, mkAuditEntry]

/-- Witness for C3 (amended): a successful safe command records exactly one
audit entry. -/
theorem C3_auditOnlyForUnblocked_witness :
    (executeSecurely defaultSecurityConfig (oracleValidAt RiskLevel.low)
      oracleSandboxOk "sid-c3w" 1 "t0" (ctxCommand "document.title")).audit.length = 1 :=
  ((C3_auditOnlyForUnblocked _ _ _ _ _ _ _ (by decide)).1 (by decide)).1

/-- C4: a `blocked: true` result also has `success: false` and was produced
without any sandbox invocation; conversely a `blocked: false, success: false`
result comes from a sandbox execution that was attempted (the sanitized
command was passed to the sandbox) and failed. -/
theorem C4_blockedMeansNoExecution (config : SecurityConfig)
    (validate : String → Option String → ValidationResult)
    (sandboxExec : String → SandboxResult) (sid : String) (elapsed : Nat)
    (ts : String) (ctx : SecureExecutionContext) :
    ((executeSecurely config validate sandboxExec sid elapsed ts ctx).result.blocked = true →
      (executeSecurely config validate sandboxExec sid elapsed ts ctx).result.success = false ∧
      (executeSecurely config validate sandboxExec sid elapsed ts ctx).sandboxCalls = []) ∧
    ((executeSecurely config validate sandboxExec sid elapsed ts ctx).result.blocked = false →
      (executeSecurely config validate sandboxExec sid elapsed ts ctx).result.success = false →
      (executeSecurely config validate sandboxExec sid elapsed ts ctx).sandboxCalls =
        [(validate ctx.command ctx.args).sanitizedInput.command] ∧
      (sandboxExec (validate ctx.command ctx.args).sanitizedInput.command).success = false) := by
  cases hv : (validate ctx.command ctx.args).isValid
  · simp [executeSecurely, hv, createBlockedResult]
  · by_cases hg : ((validate ctx.command ctx.args).riskLevel == RiskLevel.critical ||
        (config.defaultRiskThreshold == RiskLevel.high &&
          (validate ctx.command ctx.args).riskLevel == RiskLevel.high)) = true
    · simp [executeSecurely, hv, hg, createBlockedResult]
    · by_cases hb : (ctx.operationType == OperationType.command && config.enableSandbox) = true
      · simp [executeSecurely, hv, hg, hb]
      · simp [executeSecurely, hv, hg, hb]

/-- Witness for C4: a validation-blocked call has `success: false` with no
sandbox invocation; an unblocked failing execution passed exactly its
sanitized command to the sandbox. -/
theorem C4_blockedMeansNoExecution_witness :
    ((executeSecurely defaultSecurityConfig (oracleInvalidAt RiskLevel.critical)
        oracleSandboxOk "sid-c4a" 1 "t0" (ctxCommand "eval(1)")).result.success = false ∧
      (executeSecurely defaultSecurityConfig (oracleInvalidAt RiskLevel.critical)
        oracleSandboxOk "sid-c4a" 1 "t0" (ctxCommand "eval(1)")).sandboxCalls = []) ∧
    ((executeSecurely defaultSecurityConfig (oracleValidAt RiskLevel.low)
        oracleSandboxFail "sid-c4b" 1 "t0" (ctxCommand "boom()")).sandboxCalls = ["boom()"] ∧
      (oracleSandboxFail "boom()").success = false) :=
  ⟨(C4_blockedMeansNoExecution _ _ _ _ _ _ _).1 (by decide),
   (C4_blockedMeansNoExecution _ _ _ _ _ _ _).2 (by decide) (by decide)⟩

/-- C5 (counterexample): a timed-out execution of the benign command `1+1`
(static validation passes, the child is killed so `close` fires with a `null`
exit code) resolves to `success: false` whose error is
`Process exited with code null: <stderr>` — not the literal `"timeout"`. -/
theorem C5_counterexample :
    (validateCode defaultBlacklistedFunctions "1+1").isValid = true ∧
    (executeCode (fun _ => Except.error "Unexpected end of JSON input")
      { spawnError := none, timedOut := true, exitCode := 0, stdout := "", stderr := "" }
      { dirs := [], files := [] } "cex-session" 5001 "1+1").1 =
      { success := false, result := none
        error := some "Process exited with code null: ", executionTime := 5001 } ∧
    some "Process exited with code null: " ≠ some "timeout" := by
  refine ⟨by decide, by decide, by decide⟩

/-- C5 (amended): `executeCode` is total (the promise always resolves — every
rejection of the inner execution is caught and returned as data), and when the
spawned subprocess exceeds the timeout it is forcibly terminated, the result
being `success: false` with error `Process exited with code null: <stderr>`
rather than the literal `"timeout"`. -/
theorem C5_timeoutBehaviour (parseJson : String → Except String ParsedOutput)
    (run : ChildProcessRun) (fs : FS) (sessionId : String) (elapsed : Nat)
    (code : String)
    (hval : (validateCode defaultBlacklistedFunctions code).isValid = true)
    (hspawn : run.spawnError = none) (hto : run.timedOut = true) :
    (executeCode parseJson run fs sessionId elapsed code).1 =
      { success := false, result := none
        error := some ("Process exited with code null: " ++ run.stderr)
        executionTime := elapsed } := by
  simp [executeCode, hval, executeInIsolation, executeInProcess, hspawn, hto, exitCodeStr]

/-- Witness for C5 (amended): concrete timed-out run with captured stderr. -/
theorem C5_timeoutBehaviour_witness :
    (validateCode defaultBlacklistedFunctions "1+1").isValid = true ∧
    (executeCode (fun _ => Except.error "x")
      { spawnError := none, timedOut := true, exitCode := 0, stdout := "", stderr := "boomerr" }
      { dirs := [], files := [] } "w-session" 7 "1+1").1 =
      { success := false, result := none
        error := some ("Process exited with code null: " ++ "boomerr")
        executionTime := 7 } :=
  ⟨by decide, C5_timeoutBehaviour _ _ _ _ _ _ (by decide) rfl rfl⟩

/-- Files surviving `rmRec d` are not under `d`. -/
theorem mem_rmRec_files {fs : FS} {d : String} {e : String × String}
    (h : e ∈ (fs.rmRec d).files) : (d ++ "/").isPrefixOf e.1 = false := by
  simp [FS.rmRec, List.mem_filter] at h
  simpa using h.2

/-- `rmRec` only removes files. -/
theorem rmRec_subset_files {fs : FS} {d : String} {e : String × String}
    (h : e ∈ (fs.rmRec d).files) : e ∈ fs.files := by
  simp [FS.rmRec, List.mem_filter] at h
  exact h.1

/-- Directories surviving `rmRec d` are neither `d` nor under it. -/
theorem mem_rmRec_dirs {fs : FS} {d : String} {x : String}
    (h : x ∈ (fs.rmRec d).dirs) :
    x ≠ d ∧ (d ++ "/").isPrefixOf x = false := by
  simp [FS.rmRec, List.mem_filter] at h
  obtain ⟨-, h2⟩ := h
  simpa using h2

/-- Files surviving `unlink p` were present and are not `p`. -/
theorem mem_unlink_files {fs : FS} {p : String} {e : String × String}
    (h : e ∈ (fs.unlink p).files) : e ∈ fs.files ∧ e.1 ≠ p := by
  simp [FS.unlink, List.mem_filter] at h
  exact h

/-- After the harness file has just been written, the cleanup's `unlink`
cannot fail, so the `finally` block runs both the `unlink` and the `rm`. -/
theorem sandboxCleanup_after_write (fs : FS) (sPath tDir content : String) :
    sandboxCleanup ((fs.mkdirRec tDir).writeFile sPath content) sPath tDir =
      (((fs.mkdirRec tDir).writeFile sPath content).unlink sPath).rmRec tDir := by
  simp [sandboxCleanup, FS.writeFile, FS.mkdirRec]

/-- C6: after any sandbox execution — success, failure or timeout (every
possible child behaviour `run`) — the generated harness script and the
per-session scratch directory, including everything under it, are gone from
the resulting filesystem state. -/
theorem C6_cleanupInvariant (parseJson : String → Except String ParsedOutput)
    (run : ChildProcessRun) (fs : FS) (code sessionId : String) :
    (∀ e ∈ (executeInIsolation parseJson run fs code sessionId).2.files,
        e.1 ≠ scriptPathFor sessionId ∧
        (tempDirFor sessionId ++ "/").isPrefixOf e.1 = false) ∧
    (∀ d ∈ (executeInIsolation parseJson run fs code sessionId).2.dirs,
        d ≠ tempDirFor sessionId ∧
        (tempDirFor sessionId ++ "/").isPrefixOf d = false) := by
  have hfs : (executeInIsolation parseJson run fs code sessionId).2 =
      (((fs.mkdirRec (tempDirFor sessionId)).writeFile (scriptPathFor sessionId)
          (createSecureWrapper code)).unlink (scriptPathFor sessionId)).rmRec
        (tempDirFor sessionId) := by
    simp [executeInIsolation, sandboxCleanup_after_write]
  rw [hfs]
  constructor
  · intro e he
    exact ⟨(mem_unlink_files (rmRec_subset_files he)).2, mem_rmRec_files he⟩
  · intro d hd
    exact mem_rmRec_dirs hd

/-- Stripping a prefix that is literally there yields the remainder. -/
theorem stripPre_append (l m : List Char) : stripPre l (l ++ m) = some m := by
  induction l with
  | nil => rfl
  | cons c cs ih => simp [stripPre, ih]

/-- A literal starting with the closing quote is empty, whatever follows. -/
theorem readSq_cons_sq (tail : List Char) :
    readSqLiteral (sqChar :: tail) = some [] := by
  cases tail <;> simp [readSqLiteral]

/-- Reading past an ordinary character prepends it. -/
theorem readSq_cons_other {c : Char} (tail : List Char)
    (h1 : c ≠ sqChar) (h2 : c ≠ bsChar) (hne : tail ≠ []) :
    readSqLiteral (c :: tail) = (readSqLiteral tail).map fun r => c :: r := by
  cases tail with
  | nil => exact absurd rfl hne
  | cons d cs => simp [readSqLiteral, h1, h2]

/-- Reading a single-quoted literal whose body contains neither a quote nor a
backslash stops exactly at the closing quote and returns the body. -/
theorem readSqLiteral_clean (t rest : List Char)
    (h : ∀ c ∈ t, c ≠ sqChar ∧ c ≠ bsChar) :
    readSqLiteral (t ++ sqChar :: rest) = some t := by
  induction t with
  | nil => exact readSq_cons_sq rest
  | cons c cs ih =>
    have hc := h c (by simp)
    have hrec := ih fun d hd => h d (by simp [hd])
    rw [List.cons_append, readSq_cons_other _ hc.1 hc.2 (by simp), hrec]
    rfl

/-- C7 (counterexample): the literal slot for the caller's text in a generated
click-by-text command reads back faithfully for a quote-free argument, but an
argument containing a single quote terminates the string literal early — the
lexer sees `a` where the caller supplied `a'b`, so the argument changed the
structure of the generated code; the `click_button` selector splice behaves
the same way. -/
theorem C7_counterexample :
    clickByTextLiteral (generateClickByTextCommand "ab") = some "ab" ∧
    clickByTextLiteral (generateClickByTextCommand "a'b") = some "a" ∧
    some "a" ≠ some "a'b" ∧
    clickButtonLiteral (genClickButtonCommand "x'); alert(1); ('") = some "x" := by
  refine ⟨by decide, by decide, by decide, by decide⟩

/-- C7 (amended): `generateClickByTextCommand` and the basic `click_button`
translation splice the caller's argument into a single-quoted JavaScript
string literal with NO escaping; the structure of the generated code is
preserved exactly for arguments free of single quotes and backslashes, for
which the literal slot round-trips. -/
theorem C7_rawSplice (text : String)
    (h : ∀ c ∈ text.data, c ≠ sqChar ∧ c ≠ bsChar) :
    clickByTextLiteral (generateClickByTextCommand text) = some text ∧
    clickButtonLiteral (genClickButtonCommand text) = some text := by
  obtain ⟨t⟩ := text
  constructor
  · have h1 : (generateClickByTextCommand (String.mk t)).data =
        clickByTextPre.data ++ (t ++ sqChar :: clickByTextPostRest.data) := by
      show ((clickByTextPre ++ String.mk t) ++ clickByTextPost).data = _
      rw [String.data_append, String.data_append, List.append_assoc]
      rfl
    unfold clickByTextLiteral
    rw [h1, stripPre_append]
    show Option.map String.mk (readSqLiteral (t ++ sqChar :: clickByTextPostRest.data)) =
      some (String.mk t)
    rw [readSqLiteral_clean t _ h]
    rfl
  · have h2 : (genClickButtonCommand (String.mk t)).data =
        ("document.querySelector('" : String).data ++
          (t ++ sqChar :: (")?.click(); 'Button clicked'" : String).data) := by
      show ((("document.querySelector('" : String) ++ String.mk t) ++
          ("')?.click(); 'Button clicked'" : String)).data = _
      rw [String.data_append, String.data_append, List.append_assoc]
      rfl
    unfold clickButtonLiteral
    rw [h2, stripPre_append]
    show Option.map String.mk
        (readSqLiteral (t ++ sqChar :: (")?.click(); 'Button clicked'" : String).data)) =
      some (String.mk t)
    rw [readSqLiteral_clean t _ h]
    rfl

/-- Witness for C7 (amended): a realistic quote-free argument round-trips. -/
theorem C7_rawSplice_witness :
    (∀ c ∈ ("Create New Encyclopedia" : String).data, c ≠ sqChar ∧ c ≠ bsChar) ∧
    clickByTextLiteral (generateClickByTextCommand "Create New Encyclopedia") =
      some "Create New Encyclopedia" :=
  ⟨by decide, (C7_rawSplice _ (by decide)).1⟩

/-- C8: `authenticateUser` returns the same caller-visible value — `null` and
an unchanged state — whether the username is unknown, the user is inactive, or
the password is wrong, so the return value cannot distinguish the three
failure causes; and the password check compares the salted hash of the
candidate against the stored salted hash (the source performs this comparison
with a length check plus `crypto.timingSafeEqual`, whose constant-time
execution is an extra-functional property outside the embedding). -/
theorem C8_authFailuresIndistinguishable (h : String → String) (st : ACState)
    (username password freshSid : String) (now : Nat) :
    ((∀ u ∈ st.users, u.username ≠ username) →
      authenticateUser h st username password freshSid now = (none, st)) ∧
    (∀ u, findByUsername st username = some u → u.isActive = false →
      authenticateUser h st username password freshSid now = (none, st)) ∧
    (∀ u, findByUsername st username = some u → u.isActive = true →
      verifyPassword h password u.hashedPassword = false →
      authenticateUser h st username password freshSid now = (none, st)) ∧
    (∀ p stored, verifyPassword h p stored = (h (p ++ "mcp-server-salt") == stored)) := by
  refine ⟨?_, ?_, ?_, fun p stored => rfl⟩
  · intro hu
    have hnone : findByUsername st username = none := by
      simp only [findByUsername, List.find?_eq_none]
      intro u hm
      simpa using hu u hm
    simp [authenticateUser, hnone]
  · intro u hf hin
    simp [authenticateUser, hf, hin]
  · intro u hf hact hpw
    simp [authenticateUser, hf, hact, hpw]

/-- Fixture: an active user whose password is `pw` under the identity
"hash" oracle. -/
def aliceUser : User :=
  { id := "uid-1", username := "alice", hashedPassword := "pwmcp-server-salt"
    permissions := [.execute_code], maxRequests := 100, windowMs := 60000
    createdAt := 0, lastLogin := none, isActive := true, apiKey := some "key-1" }

/-- Fixture: an inactive user. -/
def carolUser : User :=
  { id := "uid-2", username := "carol", hashedPassword := "pwmcp-server-salt"
    permissions := [.execute_code], maxRequests := 100, windowMs := 60000
    createdAt := 0, lastLogin := none, isActive := false, apiKey := some "key-2" }

/-- Fixture: a one-user table holding `alice`. -/
def acFixture1 : ACState := { users := [aliceUser], sessions := [] }

/-- Fixture: a one-user table holding the inactive `carol`. -/
def acFixture2 : ACState := { users := [carolUser], sessions := [] }

/-- Witness for C8: all three failure causes yield the identical `(none, st)`
on concrete states, and the password check is the salted-hash comparison. -/
theorem C8_authFailuresIndistinguishable_witness :
    authenticateUser (fun s => s) acFixture1 "bob" "pw" "sid-w8" 5 = (none, acFixture1) ∧
    authenticateUser (fun s => s) acFixture2 "carol" "pw" "sid-w8" 5 = (none, acFixture2) ∧
    authenticateUser (fun s => s) acFixture1 "alice" "wrong" "sid-w8" 5 = (none, acFixture1) ∧
    verifyPassword (fun s => s) "pw" "stored" = (("pw" ++ "mcp-server-salt") == "stored") :=
  ⟨(C8_authFailuresIndistinguishable (fun s => s) acFixture1 "bob" "pw" "sid-w8" 5).1
      (by decide),
   (C8_authFailuresIndistinguishable (fun s => s) acFixture2 "carol" "pw" "sid-w8" 5).2.1
      carolUser (by decide) (by decide),
   (C8_authFailuresIndistinguishable (fun s => s) acFixture1 "alice" "wrong" "sid-w8" 5).2.2.1
      aliceUser (by decide) (by decide) (by decide),
   (C8_authFailuresIndistinguishable (fun s => s) acFixture1 "x" "pw" "sid-w8" 5).2.2.2
      "pw" "stored"⟩

/-- A session found by `sessionsGet` carries the looked-up id and is stored. -/
theorem sessionsGet_some {st : ACState} {sid : String} {s : SessionData}
    (h : sessionsGet st sid = some s) :
    s ∈ st.sessions ∧ s.sessionId = sid := by
  refine ⟨List.mem_of_find?_eq_some h, ?_⟩
  have := List.find?_some h
  simpa using this

/-- On a dead session id, `getValidSession` returns `null` and leaves the
state unchanged. -/
theorem getValid_of_dead (st : ACState) (sid : String) (now : Nat)
    (hd : sessionDead st sid) : getValidSession st sid now = (none, st) := by
  unfold getValidSession
  cases hget : sessionsGet st sid with
  | none => simp only [hget]
  | some s =>
    obtain ⟨hmem, hid⟩ := sessionsGet_some hget
    have hv : s.isValid = false := hd s hmem hid
    simp only [hget, hv]
    rfl

/-- `invalidateSession` kills its target id. -/
theorem invalidate_dead (st : ACState) (sid : String) :
    sessionDead (invalidateSession st sid) sid := by
  intro s hs hid
  simp only [invalidateSession, List.mem_map] at hs
  obtain ⟨t, ht, rfl⟩ := hs
  by_cases hts : (t.sessionId == sid) = true
  · simp only [if_pos hts]
  · simp only [if_neg hts] at hid
    exact absurd (beq_iff_eq.mpr hid) hts

/-- `invalidateSession` never resurrects any id. -/
theorem invalidate_preserves_dead (st : ACState) (sid sid' : String)
    (hd : sessionDead st sid) : sessionDead (invalidateSession st sid') sid := by
  intro s hs hid
  simp only [invalidateSession, List.mem_map] at hs
  obtain ⟨t, ht, rfl⟩ := hs
  by_cases hts : (t.sessionId == sid') = true
  · simp only [if_pos hts]
  · simp only [if_neg hts] at hid ⊢
    exact hd t ht hid

/-- Writing a session under a different id never resurrects a dead id. -/
theorem setSession_preserves_dead (st : ACState) (s' : SessionData) (sid : String)
    (hne : s'.sessionId ≠ sid) (hd : sessionDead st sid) :
    sessionDead (setSession st s') sid := by
  intro s hs hid
  simp only [setSession] at hs
  by_cases hany : (st.sessions.any fun t => t.sessionId == s'.sessionId) = true
  · simp only [if_pos hany, List.mem_map] at hs
    obtain ⟨t, ht, rfl⟩ := hs
    by_cases hts : (t.sessionId == s'.sessionId) = true
    · simp only [if_pos hts] at hid
      exact absurd hid hne
    · simp only [if_neg hts] at hid ⊢
      exact hd t ht hid
  · simp only [if_neg hany, List.mem_append, List.mem_singleton] at hs
    rcases hs with hmem | rfl
    · exact hd s hmem hid
    · exact absurd hid hne

/-- `getValidSession` (on any id) never resurrects a dead id. -/
theorem getValid_preserves_dead (st : ACState) (sid sid' : String) (now : Nat)
    (hd : sessionDead st sid) :
    sessionDead (getValidSession st sid' now).2 sid := by
  unfold getValidSession
  cases hget : sessionsGet st sid' with
  | none => simpa only [hget] using hd
  | some s =>
    simp only [hget]
    by_cases hv : s.isValid = true
    · by_cases hexp : now - s.lastActivity > sessionTimeout
      · simp [hv, hexp]
        exact invalidate_preserves_dead st sid sid' hd
      · simp [hv, hexp]
        apply setSession_preserves_dead _ _ _ ?_ hd
        intro heq
        obtain ⟨hmem, hid⟩ := sessionsGet_some hget
        have hdead := hd s hmem (by simpa using heq)
        rw [hv] at hdead
        exact Bool.noConfusion hdead
    · have hv' : s.isValid = false := by
        cases hb : s.isValid
        · rfl
        · exact absurd hb hv
      simp [hv']
      exact hd

/-- `hasPermission` mutates the state exactly as its inner `getValidSession`. -/
theorem hasPermission_snd (st : ACState) (sid : String) (p : Perm) (now : Nat) :
    (hasPermission st sid p now).2 = (getValidSession st sid now).2 := by
  rcases hg : getValidSession st sid now with ⟨o, st'⟩
  cases o <;> simp [hasPermission, hg]

/-- `checkRateLimit` mutates the state exactly as its inner `getValidSession`. -/
theorem checkRateLimit_snd (rl : String → Nat → Nat → Bool) (st : ACState)
    (sid : String) (now : Nat) :
    (checkRateLimit rl st sid now).2 = (getValidSession st sid now).2 := by
  rcases hg : getValidSession st sid now with ⟨o, st'⟩
  cases o with
  | none => simp [checkRateLimit, hg]
  | some s => cases hu : getUserById st' s.userId <;> simp [checkRateLimit, hg, hu]

/-- No single observing operation resurrects a dead session id. -/
theorem applyOp_preserves_dead (rl : String → Nat → Nat → Bool) (st : ACState)
    (sid : String) (op : ACOp) (hd : sessionDead st sid) :
    sessionDead (applyOp rl st op) sid := by
  cases op with
  | getValid sid' now => exact getValid_preserves_dead st sid sid' now hd
  | hasPerm sid' p now =>
    simpa only [applyOp, hasPermission_snd] using
      getValid_preserves_dead st sid sid' now hd
  | rateLimit sid' now =>
    simpa only [applyOp, checkRateLimit_snd] using
      getValid_preserves_dead st sid sid' now hd
  | invalidate sid' => exact invalidate_preserves_dead st sid sid' hd

/-- No sequence of observing operations resurrects a dead session id. -/
theorem applyOps_preserves_dead (rl : String → Nat → Nat → Bool) (st : ACState)
    (sid : String) (ops : List ACOp) (hd : sessionDead st sid) :
    sessionDead (applyOps rl st ops) sid := by
  induction ops generalizing st with
  | nil => exact hd
  | cons op ops ih => exact ih _ (applyOp_preserves_dead rl st sid op hd)

/-- Queries on a dead id: invisible to `getValidSession`, denied by
`hasPermission` and `checkRateLimit`. -/
theorem dead_queries (rl : String → Nat → Nat → Bool) (st : ACState)
    (sid : String) (now : Nat) (p : Perm) (hd : sessionDead st sid) :
    (getValidSession st sid now).1 = none ∧
    (hasPermission st sid p now).1 = false ∧
    (checkRateLimit rl st sid now).1 = false := by
  have hg := getValid_of_dead st sid now hd
  exact ⟨by rw [hg], by simp [hasPermission, hg], by simp [checkRateLimit, hg]⟩

/-- Replacing the matching entry makes the lookup return the new session. -/
theorem find?_map_replace (l : List SessionData) (s : SessionData)
    (hany : (l.any fun t => t.sessionId == s.sessionId) = true) :
    ((l.map fun t => if t.sessionId == s.sessionId then s else t).find?
      fun t => t.sessionId == s.sessionId) = some s := by
  induction l with
  | nil => simp at hany
  | cons t ts ih =>
    by_cases hts : (t.sessionId == s.sessionId) = true
    · rw [List.map_cons, if_pos hts, List.find?_cons_of_pos _ (by simp)]
    · have hany' : (ts.any fun t => t.sessionId == s.sessionId) = true := by
        simpa [List.any_cons, hts] using hany
      rw [List.map_cons, if_neg hts,
        List.find?_cons_of_neg _ (by simpa using hts)]
      exact ih hany'

/-- Appending a fresh entry makes the lookup return it. -/
theorem find?_append_single (l : List SessionData) (s : SessionData)
    (hany : (l.any fun t => t.sessionId == s.sessionId) = false) :
    ((l ++ [s]).find? fun t => t.sessionId == s.sessionId) = some s := by
  induction l with
  | nil => rw [List.nil_append, List.find?_cons_of_pos _ (by simp)]
  | cons t ts ih =>
    have h1 : (t.sessionId == s.sessionId) = false := by
      cases hb : t.sessionId == s.sessionId
      · rfl
      · rw [List.any_cons, hb, Bool.true_or] at hany
        exact Bool.noConfusion hany
    have h2 : (ts.any fun t => t.sessionId == s.sessionId) = false := by
      cases hb : ts.any fun t => t.sessionId == s.sessionId
      · rfl
      · rw [List.any_cons, hb, Bool.or_true] at hany
        exact Bool.noConfusion hany
    rw [List.cons_append, List.find?_cons_of_neg _ (by simp [h1])]
    exact ih h2

/-- After `setSession st s`, looking up `s.sessionId` yields `s`. -/
theorem sessionsGet_setSession (st : ACState) (s : SessionData) :
    sessionsGet (setSession st s) s.sessionId = some s := by
  unfold sessionsGet setSession
  by_cases hany : (st.sessions.any fun t => t.sessionId == s.sessionId) = true
  · simp only [if_pos hany]
    exact find?_map_replace st.sessions s hany
  · simp only [if_neg hany]
    exact find?_append_single st.sessions s (by
      cases hb : st.sessions.any fun t => t.sessionId == s.sessionId
      · rfl
      · exact absurd hb hany)

/-- A successful authentication returns the fresh session id, and reading the
session back at the same instant yields the freshly minted valid session. -/
theorem authenticateUser_valid (h : String → String) (st : ACState)
    (username password freshSid : String) (now : Nat) (u : User)
    (hf : findByUsername st username = some u) (hact : u.isActive = true)
    (hpw : verifyPassword h password u.hashedPassword = true) :
    (authenticateUser h st username password freshSid now).1 = some freshSid ∧
    (getValidSession (authenticateUser h st username password freshSid now).2
        freshSid now).1 =
      some { userId := u.id, sessionId := freshSid, createdAt := now
             lastActivity := now, permissions := u.permissions, isValid := true } := by
  constructor
  · simp [authenticateUser, hf, hact, hpw]
  · have hget : sessionsGet
        (authenticateUser h st username password freshSid now).2 freshSid =
        some { userId := u.id, sessionId := freshSid, createdAt := now
               lastActivity := now, permissions := u.permissions, isValid := true } := by
      have hsess : (authenticateUser h st username password freshSid now).2.sessions =
          (setSession st
            { userId := u.id, sessionId := freshSid, createdAt := now
              lastActivity := now, permissions := u.permissions, isValid := true }).sessions := by
        simp [authenticateUser, hf, hact, hpw]
      unfold sessionsGet
      rw [hsess]
      exact sessionsGet_setSession st
        { userId := u.id, sessionId := freshSid, createdAt := now
          lastActivity := now, permissions := u.permissions, isValid := true }
    unfold getValidSession
    rw [hget]
    simp [sessionTimeout]

/-- C9: (a) a session returned by `authenticateUser` is valid immediately
after issuance (reading it back at the issuing instant yields the fresh valid
session); (b) once strictly more than the 24-hour `sessionTimeout` elapses
with no access, `getValidSession` reports it invalid; (c) after
`invalidateSession`, no later sequence of `getValidSession`, `hasPermission`,
`checkRateLimit` (or further invalidation) calls ever treats that session id
as valid again. -/
theorem C9_sessionLifecycle (h : String → String) (rl : String → Nat → Nat → Bool) :
    (∀ st username password freshSid now u,
      findByUsername st username = some u → u.isActive = true →
      verifyPassword h password u.hashedPassword = true →
      (authenticateUser h st username password freshSid now).1 = some freshSid ∧
      (getValidSession (authenticateUser h st username password freshSid now).2
          freshSid now).1 =
        some { userId := u.id, sessionId := freshSid, createdAt := now
               lastActivity := now, permissions := u.permissions, isValid := true }) ∧
    (∀ st sid s now, sessionsGet st sid = some s → s.isValid = true →
      now - s.lastActivity > sessionTimeout →
      (getValidSession st sid now).1 = none) ∧
    (∀ st sid ops now p,
      (getValidSession (applyOps rl (invalidateSession st sid) ops) sid now).1 = none ∧
      (hasPermission (applyOps rl (invalidateSession st sid) ops) sid p now).1 = false ∧
      (checkRateLimit rl (applyOps rl (invalidateSession st sid) ops) sid now).1 = false) := by
  refine ⟨?_, ?_, ?_⟩
  · intro st username password freshSid now u hf hact hpw
    exact authenticateUser_valid h st username password freshSid now u hf hact hpw
  · intro st sid s now hget hv hexp
    unfold getValidSession
    rw [hget]
    simp [hv, hexp]
  · intro st sid ops now p
    have hd := applyOps_preserves_dead rl (invalidateSession st sid) sid ops
      (invalidate_dead st sid)
    exact dead_queries rl _ sid now p hd

/-- Fixture: a valid session whose last activity is at time 5. -/
def expiredSession : SessionData :=
  { userId := "uid-1", sessionId := "sid-e", createdAt := 0, lastActivity := 5
    permissions := [.execute_code], isValid := true }

/-- Fixture: `alice` plus a session that will sit idle past the timeout. -/
def acFixture3 : ACState := { users := [aliceUser], sessions := [expiredSession] }

/-- Fixture: `alice` plus a valid session to be invalidated. -/
def acFixture4 : ACState :=
  { users := [aliceUser]
    sessions := [{ userId := "uid-1", sessionId := "sid-v", createdAt := 0
                   lastActivity := 0, permissions := [.admin], isValid := true }] }

/-- Fixture: a mixed sequence of observing operations on the dead id and on
another id. -/
def deadOpsFixture : List ACOp :=
  [.getValid "sid-v" 7, .hasPerm "sid-v" .admin 8, .rateLimit "sid-v" 9,
   .invalidate "other", .getValid "sid-x" 11]

/-- Witness for C9: a concrete login is immediately valid; a concrete session
idle one millisecond past the timeout is reported invalid; a concretely
invalidated id stays dead through a mixed operation sequence. -/
theorem C9_sessionLifecycle_witness :
    ((authenticateUser (fun s => s) acFixture1 "alice" "pw" "sid-w9" 10).1 = some "sid-w9" ∧
      (getValidSession (authenticateUser (fun s => s) acFixture1 "alice" "pw" "sid-w9" 10).2
          "sid-w9" 10).1 =
        some { userId := "uid-1", sessionId := "sid-w9", createdAt := 10
               lastActivity := 10, permissions := [.execute_code], isValid := true }) ∧
    (getValidSession acFixture3 "sid-e" (5 + sessionTimeout + 1)).1 = none ∧
    ((getValidSession (applyOps (fun _ _ _ => true) (invalidateSession acFixture4 "sid-v")
        deadOpsFixture) "sid-v" 99).1 = none ∧
      (hasPermission (applyOps (fun _ _ _ => true) (invalidateSession acFixture4 "sid-v")
        deadOpsFixture) "sid-v" Perm.admin 99).1 = false ∧
      (checkRateLimit (fun _ _ _ => true) (applyOps (fun _ _ _ => true)
        (invalidateSession acFixture4 "sid-v") deadOpsFixture) "sid-v" 99).1 = false) :=
  ⟨(C9_sessionLifecycle (fun s => s) (fun _ _ _ => true)).1 acFixture1 "alice" "pw"
      "sid-w9" 10 aliceUser (by decide) (by decide) (by decide),
   (C9_sessionLifecycle (fun s => s) (fun _ _ _ => true)).2.1 acFixture3 "sid-e"
      expiredSession (5 + sessionTimeout + 1) (by decide) (by decide) (by decide),
   (C9_sessionLifecycle (fun s => s) (fun _ _ _ => true)).2.2 acFixture4 "sid-v"
      deadOpsFixture 99 Perm.admin⟩

/-- C10: constructed with no existing users and no `MCP_ADMIN_PASSWORD` in the
environment, `AccessControl` creates exactly one user, named `admin`, holding
the `admin` permission, whose stored hash is the salted hash of the fallback
password `admin123`; authenticating as `admin`/`admin123` then yields a valid
session for which `hasPermission` grants every permission. -/
theorem C10_defaultAdmin (h : String → String) (uid apiKey freshSid : String)
    (now t : Nat) :
    (mkAccessControl h none uid apiKey now).users =
      [{ id := uid, username := "admin"
         hashedPassword := h ("admin123" ++ "mcp-server-salt")
         permissions := [Perm.admin], maxRequests := 1000, windowMs := 60000
         createdAt := now, lastLogin := none, isActive := true
         apiKey := some apiKey }] ∧
    (authenticateUser h (mkAccessControl h none uid apiKey now) "admin" "admin123"
        freshSid t).1 = some freshSid ∧
    ∀ p, (hasPermission
        (authenticateUser h (mkAccessControl h none uid apiKey now) "admin" "admin123"
          freshSid t).2 freshSid p t).1 = true := by
  have husers : (mkAccessControl h none uid apiKey now).users =
      [{ id := uid, username := "admin"
         hashedPassword := h ("admin123" ++ "mcp-server-salt")
         permissions := [Perm.admin], maxRequests := 1000, windowMs := 60000
         createdAt := now, lastLogin := none, isActive := true
         apiKey := some apiKey }] := by
    simp [mkAccessControl, initializeDefaultUser, createUser, setUser,
      envOrDefaultPassword, hashPassword]
  have hf : findByUsername (mkAccessControl h none uid apiKey now) "admin" =
      some { id := uid, username := "admin"
             hashedPassword := h ("admin123" ++ "mcp-server-salt")
             permissions := [Perm.admin], maxRequests := 1000, windowMs := 60000
             createdAt := now, lastLogin := none, isActive := true
             apiKey := some apiKey } := by
    unfold findByUsername
    rw [husers]
    simp
  have hva := authenticateUser_valid h (mkAccessControl h none uid apiKey now)
    "admin" "admin123" freshSid t _ hf rfl (by simp [verifyPassword, hashPassword])
  refine ⟨husers, hva.1, ?_⟩
  intro p
  unfold hasPermission
  rcases hg : getValidSession
      (authenticateUser h (mkAccessControl h none uid apiKey now) "admin" "admin123"
        freshSid t).2 freshSid t with ⟨o, st'⟩
  have ho : o = some { userId := uid, sessionId := freshSid, createdAt := t
                       lastActivity := t, permissions := [Perm.admin], isValid := true } := by
    have := hva.2
    rw [hg] at this
    exact this
  rw [ho]
  simp

end ElectronMCP
